import Mathlib

/-!
Shallow embedding of the CHIP-8 emulator (clint07/CHIP-8-Go) for checking
its natural-language specification.

The authoritative revision is the `CPU` implementation in the SDL-backed
source file (src/unnamed/part_000): the `CPU` struct, `Cycle`, `execute`
and the per-instruction handlers.  The older `VM` revision
(src/chip8/vm.go) is embedded only where a claim cites it (`VM.subXY`).

Machine integers are modelled as `Nat` with explicit wraparound:
  * Go `byte` arithmetic wraps modulo 256,
  * Go `uint16` arithmetic wraps modulo 65536,
  * Go `uint` (64-bit) arithmetic wraps modulo 2^64.
Go array accesses carry a runtime bounds check; an out-of-range index
panics.  We model that by an explicit bound test at every indexing site,
yielding a `Res.panicked` outcome.  A Go function returning a non-nil
`error` is modelled by `Res.goError`; since the Go methods mutate the
`CPU` through a pointer, mutations made before the `return err` persist,
so `Res.goError` carries the mutated state.
-/

namespace Chip8

/-- Kinds of abnormal outcomes.  `stackIndex`, `ramIndex`, `gfxIndex` and
`keyIndex` are Go runtime index-out-of-range panics on the corresponding
arrays; the remaining kinds are the `fmt.Errorf` error values returned by
`jump`, `call` and `draw`. -/
inductive ErrKind where
  | stackIndex
  | ramIndex
  | gfxIndex
  | keyIndex
  | jumpPC
  | callPC
  | callSP
  | drawY
  | drawX
  deriving DecidableEq, Repr

/-- The `CPU` struct of the source: 4096 bytes of RAM, a 32x64 pixel
buffer (row-major, as in `GFX [32][64]byte`), a 16-slot stack of uint16
return addresses, sixteen 8-bit registers, program counter, stack
pointer, address register `I`, the two timers, the keypad snapshot and
the draw flag.  Arrays are total functions on `Nat`; only the in-range
indices are meaningful and every source indexing site is bounds-checked
where it is modelled.  The ROM-size field and the SDL keypad map are
boundary concerns outside the executed core and are not carried. -/
structure CPU where
  RAM : Nat → Nat
  GFX : Nat → Nat → Nat
  Stack : Nat → Nat
  V : Nat → Nat
  PC : Nat
  SP : Nat
  I : Nat
  DT : Nat
  ST : Nat
  Key : Nat → Bool
  DF : Bool

/-- Pointwise update of a one-dimensional array modelled as a function. -/
def updF (f : Nat → Nat) (i v : Nat) : Nat → Nat :=
  fun j => if j = i then v else f j

/-- Pointwise update of the two-dimensional pixel buffer. -/
def updG (g : Nat → Nat → Nat) (r c v : Nat) : Nat → Nat → Nat :=
  fun r' c' => if r' = r ∧ c' = c then v else g r' c'

/-- Outcome of executing a handler, an instruction, or a cycle: normal
completion, a returned Go `error` (with the state as mutated so far,
since the receiver is a pointer), or a runtime panic. -/
inductive Res where
  | ok (s : CPU)
  | goError (k : ErrKind) (s : CPU)
  | panicked (k : ErrKind)

/-- The machine state visible to the caller after a non-panicking
outcome (the `CPU` is mutated in place, so it survives a returned
error). -/
def Res.state? : Res → Option CPU
  | .ok s => some s
  | .goError _ s => some s
  | .panicked _ => none

/-- Whether the outcome is a runtime panic. -/
def Res.isPanic : Res → Bool
  | .panicked _ => true
  | _ => false

/-- Whether the outcome is the returned error of `jump`
("jump: program counter out of bound"). -/
def Res.isJumpErr : Res → Bool
  | .goError .jumpPC _ => true
  | _ => false

/-- Whether the outcome is the returned error of `draw` for a row
out of bounds ("draw: Y out of bounds"). -/
def Res.isDrawYErr : Res → Bool
  | .goError .drawY _ => true
  | _ => false

/-- Sequencing: propagate errors and panics, continue on `ok`. -/
def bindRes (r : Res) (f : CPU → Res) : Res :=
  match r with
  | .ok s => f s
  | e => e

/-- Program counter of the surviving state, if any. -/
def resPC (r : Res) : Option Nat := r.state?.map fun s => s.PC

/-- Stack pointer of the surviving state, if any. -/
def resSP (r : Res) : Option Nat := r.state?.map fun s => s.SP

/-- Delay timer of the surviving state, if any. -/
def resDT (r : Res) : Option Nat := r.state?.map fun s => s.DT

/-- Sound timer of the surviving state, if any. -/
def resST (r : Res) : Option Nat := r.state?.map fun s => s.ST

/-- Register `i` of the surviving state, if any. -/
def resV (i : Nat) (r : Res) : Option Nat := r.state?.map fun s => s.V i

/-- Stack slot 0 of the surviving state, if any. -/
def resStack0 (r : Res) : Option Nat := r.state?.map fun s => s.Stack 0

/-- Go `byte` subtraction `a - b`, wrapping modulo 256 (the operands of
the source are bytes, hence `< 256`). -/
def bsub (a b : Nat) : Nat := (a + 256 - b % 256) % 256

/-- Instruction 00E0 (`clear`): zero out `GFX`, set the draw flag,
increment the PC. -/
def clear (s : CPU) : CPU :=
  { s with GFX := fun _ _ => 0, DF := true, PC := (s.PC + 2) % 65536 }

/-- Instruction 00EE (`ret`): `cpu.SP -= 1` (uint16, so SP 0 wraps to
65535); the source's `cpu.SP < 0` error check is omitted because it is
unsatisfiable for an unsigned integer (dead code in the source); then
`cpu.PC = cpu.Stack[cpu.SP]` (bounds-checked read) and `cpu.PC += 2`. -/
def ret (s : CPU) : Res :=
  let s1 := { s with SP := (s.SP + 65535) % 65536 }
  if s1.SP < 16 then
    let s2 := { s1 with PC := s1.Stack s1.SP }
    .ok { s2 with PC := (s2.PC + 2) % 65536 }
  else
    .panicked .stackIndex

/-- Instruction 1nnn (`jump`): `cpu.PC = nnn`, then return an error when
`cpu.PC > 4028` (the assignment to PC persists on the error path). -/
def jump (s : CPU) (nnn : Nat) : Res :=
  let s1 := { s with PC := nnn }
  if s1.PC > 4028 then .goError .jumpPC s1 else .ok s1

/-- Instruction 2nnn (`call`): `cpu.Stack[cpu.SP] = cpu.PC` (a
bounds-checked write of the call-site PC, not PC+2), then
`cpu.PC = nnn` with an error when the new PC exceeds 4028, then
`cpu.SP += 1` with an error when the incremented SP exceeds
`len(cpu.Stack) = 16`. -/
def call (s : CPU) (nnn : Nat) : Res :=
  if s.SP < 16 then
    let s1 := { s with Stack := updF s.Stack s.SP s.PC, PC := nnn }
    if s1.PC > 4028 then .goError .callPC s1
    else
      let s2 := { s1 with SP := (s1.SP + 1) % 65536 }
      if s2.SP > 16 then .goError .callSP s2 else .ok s2
  else
    .panicked .stackIndex

/-- Instruction 3xkk (`skipIf`): skip when `V[x] = kk`, then the
unconditional advance. -/
def skipIf (s : CPU) (vx kk : Nat) : CPU :=
  let s1 := if s.V vx = kk then { s with PC := (s.PC + 2) % 65536 } else s
  { s1 with PC := (s1.PC + 2) % 65536 }

/-- Instruction 4xkk (`skipIfNot`): skip when `V[x] ≠ kk`. -/
def skipIfNot (s : CPU) (vx kk : Nat) : CPU :=
  let s1 := if s.V vx ≠ kk then { s with PC := (s.PC + 2) % 65536 } else s
  { s1 with PC := (s1.PC + 2) % 65536 }

/-- Instruction 5xy0 (`skipIfXY`): skip when `V[x] = V[y]`. -/
def skipIfXY (s : CPU) (vx vy : Nat) : CPU :=
  let s1 := if s.V vx = s.V vy then { s with PC := (s.PC + 2) % 65536 } else s
  { s1 with PC := (s1.PC + 2) % 65536 }

/-- Instruction 6xkk (`load`): `V[x] = kk`. -/
def load (s : CPU) (vx kk : Nat) : CPU :=
  { s with V := updF s.V vx kk, PC := (s.PC + 2) % 65536 }

/-- Instruction 7xkk (`add`): `V[x] += kk`, wrapping byte addition. -/
def add (s : CPU) (vx kk : Nat) : CPU :=
  { s with V := updF s.V vx ((s.V vx + kk) % 256), PC := (s.PC + 2) % 65536 }

/-- Instruction 8xy0 (`loadXY`): `V[x] = V[y]`. -/
def loadXY (s : CPU) (vx vy : Nat) : CPU :=
  { s with V := updF s.V vx (s.V vy), PC := (s.PC + 2) % 65536 }

/-- Instruction 8xy1 (`orXY`): `V[x] |= V[y]`. -/
def orXY (s : CPU) (vx vy : Nat) : CPU :=
  { s with V := updF s.V vx (s.V vx ||| s.V vy), PC := (s.PC + 2) % 65536 }

/-- Instruction 8xy2 (`andXY`): `V[x] &= V[y]`. -/
def andXY (s : CPU) (vx vy : Nat) : CPU :=
  { s with V := updF s.V vx (s.V vx &&& s.V vy), PC := (s.PC + 2) % 65536 }

/-- Instruction 8xy3 (`xorXY`): `V[x] ^= V[y]`. -/
def xorXY (s : CPU) (vx vy : Nat) : CPU :=
  { s with V := updF s.V vx (s.V vx ^^^ s.V vy), PC := (s.PC + 2) % 65536 }

/-- Instruction 8xy4 (`addXY`): the widened sum is computed first, then
`VF` receives the carry, then `V[x]` receives the low byte (so for
`x = 15` the second write overwrites the flag, as in the source). -/
def addXY (s : CPU) (vx vy : Nat) : CPU :=
  let num := s.V vx + s.V vy
  let s1 := { s with V := updF s.V 15 (if num > 255 then 1 else 0) }
  let s2 := { s1 with V := updF s1.V vx (num % 256) }
  { s2 with PC := (s2.PC + 2) % 65536 }

/-- Instruction 8xy5 (`subXY`, the authoritative part_000 revision):
`VF = (V[x] > V[y]) ? 1 : 0`, then `V[x] = V[x] - V[y]` reading the
registers after that flag write, as in the source. -/
def subXY (s : CPU) (vx vy : Nat) : CPU :=
  let s1 := { s with V := updF s.V 15 (if s.V vx > s.V vy then 1 else 0) }
  let s2 := { s1 with V := updF s1.V vx (bsub (s1.V vx) (s1.V vy)) }
  { s2 with PC := (s2.PC + 2) % 65536 }

/-- Instruction 8xy6 (`shiftRight`): `VF = V[x] & 1`, then
`V[x] >>= 1` reading after the flag write. -/
def shiftRight (s : CPU) (vx : Nat) : CPU :=
  let s1 := { s with V := updF s.V 15 (s.V vx &&& 1) }
  let s2 := { s1 with V := updF s1.V vx (s1.V vx >>> 1) }
  { s2 with PC := (s2.PC + 2) % 65536 }

/-- Instruction 8xy7 (`subYX`): `VF = (V[y] > V[x]) ? 1 : 0`, then
`V[x] = V[y] - V[x]` reading after the flag write. -/
def subYX (s : CPU) (vx vy : Nat) : CPU :=
  let s1 := { s with V := updF s.V 15 (if s.V vy > s.V vx then 1 else 0) }
  let s2 := { s1 with V := updF s1.V vx (bsub (s1.V vy) (s1.V vx)) }
  { s2 with PC := (s2.PC + 2) % 65536 }

/-- Instruction 8xyE (`shiftLeft`): `VF = (V[x] >> 7) & 1`, then
`V[x] <<= 1` (byte, wrapping) reading after the flag write. -/
def shiftLeft (s : CPU) (vx : Nat) : CPU :=
  let s1 := { s with V := updF s.V 15 ((s.V vx >>> 7) &&& 1) }
  let s2 := { s1 with V := updF s1.V vx ((s1.V vx <<< 1) % 256) }
  { s2 with PC := (s2.PC + 2) % 65536 }

/-- Instruction 9xy0 (`skipIfNotXY`): skip when `V[x] ≠ V[y]`. -/
def skipIfNotXY (s : CPU) (vx vy : Nat) : CPU :=
  let s1 := if s.V vx ≠ s.V vy then { s with PC := (s.PC + 2) % 65536 } else s
  { s1 with PC := (s1.PC + 2) % 65536 }

/-- Instruction Annn (`loadI`): `I = nnn`. -/
def loadI (s : CPU) (nnn : Nat) : CPU :=
  { s with I := nnn, PC := (s.PC + 2) % 65536 }

/-- Instruction Bnnn (`jumpV0`): `PC = V[0] + nnn` (uint16 sum); the
source performs no further PC advance for this instruction. -/
def jumpV0 (s : CPU) (nnn : Nat) : CPU :=
  { s with PC := (s.V 0 + nnn) % 65536 }

/-- Instruction Cxkk (`rand`): the source draws `rand.Intn(0xFF)`; the
random source is modelled by the oracle argument `r`, reduced modulo 255
to match `Intn`'s half-open range, then masked with `kk`. -/
def randKK (s : CPU) (vx kk r : Nat) : CPU :=
  { s with V := updF s.V vx (kk &&& (r % 255)), PC := (s.PC + 2) % 65536 }

/-- One iteration of the inner bit loop of `draw`, for bit index `j` of
the sprite byte `value` on screen row `row` with base x coordinate `x`:
the source first re-tests the row against 64 (its comment says X, but it
tests `y + byte(i)` again) and returns an error on failure; then, when
sprite bit `j` (MSB first) is set, it reads `GFX[row][x+j]` (both
indices bounds-checked by the Go runtime, byte wraparound on `x+j`),
latches `VF = 1` when the target pixel is already 1, and XORs the
pixel. -/
def drawBitStep (row x value j : Nat) (s : CPU) : Res :=
  if row > 64 then .goError .drawX s
  else if value &&& (0x80 >>> j) ≠ 0 then
    if row < 32 then
      if (x + j) % 256 < 64 then
        let col := (x + j) % 256
        let s1 := if s.GFX row col = 1 then { s with V := updF s.V 15 1 } else s
        .ok { s1 with GFX := updG s1.GFX row col ((s1.GFX row col) ^^^ 1) }
      else .panicked .gfxIndex
    else .panicked .gfxIndex
  else .ok s

/-- The inner loop of `draw`: bits `j, j+1, ...` while `count` bits
remain. -/
def drawBitsFrom (row x value : Nat) : Nat → Nat → CPU → Res
  | _, 0, s => .ok s
  | j, c + 1, s => bindRes (drawBitStep row x value j s) (drawBitsFrom row x value (j + 1) c)

/-- The outer row loop of `draw`: row indices `i, i+1, ...` while
`count` rows remain.  Each iteration computes the screen row
`y + byte(i)` (byte wraparound), returns the source's
"Y out of bounds" error when it exceeds 32, reads the sprite byte
`RAM[I+i]` (bounds-checked), and runs the bit loop. -/
def drawRowsFrom (x y : Nat) : Nat → Nat → CPU → Res
  | _, 0, s => .ok s
  | i, c + 1, s =>
    if (y + i) % 256 > 32 then .goError .drawY s
    else if s.I + i < 4096 then
      bindRes (drawBitsFrom ((y + i) % 256) x (s.RAM (s.I + i)) 0 8 s)
        (drawRowsFrom x y (i + 1) c)
    else .panicked .ramIndex

/-- Instruction Dxyn (`draw`): n rows of the sprite at `RAM[I..]` are
XOR-blitted at `(V[x], V[y])`; on normal completion the draw flag is set
and the PC advanced. -/
def draw (s : CPU) (vx vy n : Nat) : Res :=
  bindRes (drawRowsFrom (s.V vx) (s.V vy) 0 n s)
    (fun s1 => .ok { s1 with DF := true, PC := (s1.PC + 2) % 65536 })

/-- Whether the collision test of one bit of a draw fires: this follows
the branch structure of `drawBitStep` and is true exactly when that step
reaches the source's `cpu.GFX[y+i][x+j] == 1` comparison with a set
sprite bit and the target pixel currently holds 1 — i.e. when this set
sprite bit lands on an already-set pixel. -/
def stepCollides (row x value j : Nat) (s : CPU) : Bool :=
  if row > 64 then false
  else if value &&& (0x80 >>> j) ≠ 0 then
    if row < 32 then
      if (x + j) % 256 < 64 then
        if s.GFX row ((x + j) % 256) = 1 then true else false
      else false
    else false
  else false

/-- Continue a collision scan only through a normal outcome: abnormal
outcomes end the draw, so no further collision test runs. -/
def contCollide (r : Res) (f : CPU → Bool) : Bool :=
  match r with
  | .ok s => f s
  | _ => false

/-- Whether any collision test fires during the remaining `count` bits
of a sprite row, scanning the same evolving states `drawBitsFrom`
produces. -/
def drawBitsCollide (row x value : Nat) : Nat → Nat → CPU → Bool
  | _, 0, _ => false
  | j, c + 1, s =>
    stepCollides row x value j s ||
      contCollide (drawBitStep row x value j s) (drawBitsCollide row x value (j + 1) c)

/-- Whether any collision test fires during the remaining `count` rows
of a draw, scanning the same evolving states `drawRowsFrom` produces. -/
def drawRowsCollide (x y : Nat) : Nat → Nat → CPU → Bool
  | _, 0, _ => false
  | i, c + 1, s =>
    if (y + i) % 256 > 32 then false
    else if s.I + i < 4096 then
      drawBitsCollide ((y + i) % 256) x (s.RAM (s.I + i)) 0 8 s ||
        contCollide (drawBitsFrom ((y + i) % 256) x (s.RAM (s.I + i)) 0 8 s)
          (drawRowsCollide x y (i + 1) c)
    else false

/-- Whether some set sprite bit of the draw `Dxyn` at `(V[vx], V[vy])`
with height `n` lands on an already-set pixel: the accumulated collision
condition of the execution, over the same traversal `draw` performs. -/
def drawCollides (s : CPU) (vx vy n : Nat) : Bool :=
  drawRowsCollide (s.V vx) (s.V vy) 0 n s

/-- Instruction Ex9E (`skipIfKey`): `Key[V[x]]` is a bounds-checked read
of the 16-entry keypad array with a byte index, so values of `V[x]`
above 15 panic; skip when the key is pressed. -/
def skipIfKey (s : CPU) (vx : Nat) : Res :=
  if s.V vx < 16 then
    let s1 := if s.Key (s.V vx) then { s with PC := (s.PC + 2) % 65536 } else s
    .ok { s1 with PC := (s1.PC + 2) % 65536 }
  else .panicked .keyIndex

/-- Instruction ExA1 (`skipIfKeyNot`): skip when the key is not
pressed. -/
def skipIfKeyNot (s : CPU) (vx : Nat) : Res :=
  if s.V vx < 16 then
    let s1 := if s.Key (s.V vx) then s else { s with PC := (s.PC + 2) % 65536 }
    .ok { s1 with PC := (s1.PC + 2) % 65536 }
  else .panicked .keyIndex

/-- Instruction Fx07 (`loadXDT`): `V[x] = DT`. -/
def loadXDT (s : CPU) (vx : Nat) : CPU :=
  { s with V := updF s.V vx s.DT, PC := (s.PC + 2) % 65536 }

/-- Instruction Fx0A (`loadKey`): the source busy-waits on the SDL event
queue until a mapped key-down arrives; the eventually observed keypad
code (a value 0x0-0xF from the scancode map) is modelled by the oracle
argument `k`. -/
def loadKey (s : CPU) (vx k : Nat) : CPU :=
  { s with V := updF s.V vx (k % 16), PC := (s.PC + 2) % 65536 }

/-- Instruction Fx15 (`loadDTX`): `DT = V[x]`. -/
def loadDTX (s : CPU) (vx : Nat) : CPU :=
  { s with DT := s.V vx, PC := (s.PC + 2) % 65536 }

/-- Instruction Fx18 (`loadSTX`): `ST = V[x]`. -/
def loadSTX (s : CPU) (vx : Nat) : CPU :=
  { s with ST := s.V vx, PC := (s.PC + 2) % 65536 }

/-- Instruction Fx1E (`addIX`): `I = I + V[x]` in Go `uint` (64-bit)
arithmetic. -/
def addIX (s : CPU) (vx : Nat) : CPU :=
  { s with I := (s.I + s.V vx) % (2 ^ 64), PC := (s.PC + 2) % 65536 }

/-- Instruction Fx29 (`loadIX`): `I = V[x] * 5`. -/
def loadIX (s : CPU) (vx : Nat) : CPU :=
  { s with I := s.V vx * 5, PC := (s.PC + 2) % 65536 }

/-- Instruction Fx33 (`loadBCD`): the loop writes the ones digit to
`RAM[I+2]`, the tens digit to `RAM[I+1]` and the hundreds digit to
`RAM[I]`, in that order, each write bounds-checked. -/
def loadBCD (s : CPU) (vx : Nat) : Res :=
  let dec := s.V vx
  if s.I + 2 < 4096 then
    let s1 := { s with RAM := updF s.RAM (s.I + 2) (dec % 10) }
    if s1.I + 1 < 4096 then
      let s2 := { s1 with RAM := updF s1.RAM (s1.I + 1) (dec / 10 % 10) }
      if s2.I < 4096 then
        .ok { s2 with RAM := updF s2.RAM s2.I (dec / 10 / 10 % 10),
                      PC := (s2.PC + 2) % 65536 }
      else .panicked .ramIndex
    else .panicked .ramIndex
  else .panicked .ramIndex

/-- The loop of `saveV`: store registers `V[i], V[i+1], ...` to
`RAM[I+i], RAM[I+i+1], ...` while `count` registers remain, each write
bounds-checked. -/
def storeRegs : Nat → Nat → CPU → Res
  | _, 0, s => .ok s
  | i, c + 1, s =>
    if s.I + i < 4096 then
      storeRegs (i + 1) c { s with RAM := updF s.RAM (s.I + i) (s.V i) }
    else .panicked .ramIndex

/-- Instruction Fx55 (`saveV`): store `V[0..=x]` to `RAM[I..=I+x]`,
then advance the PC. -/
def saveV (s : CPU) (vx : Nat) : Res :=
  bindRes (storeRegs 0 (vx + 1) s)
    (fun s1 => .ok { s1 with PC := (s1.PC + 2) % 65536 })

/-- The loop of `loadV`: load registers `V[i], V[i+1], ...` from
`RAM[I+i], RAM[I+i+1], ...` while `count` registers remain, each read
bounds-checked. -/
def loadRegs : Nat → Nat → CPU → Res
  | _, 0, s => .ok s
  | i, c + 1, s =>
    if s.I + i < 4096 then
      loadRegs (i + 1) c { s with V := updF s.V i (s.RAM (s.I + i)) }
    else .panicked .ramIndex

/-- Instruction Fx65 (`loadV`): load `V[0..=x]` from `RAM[I..=I+x]`,
then advance the PC. -/
def loadV (s : CPU) (vx : Nat) : Res :=
  bindRes (loadRegs 0 (vx + 1) s)
    (fun s1 => .ok { s1 with PC := (s1.PC + 2) % 65536 })

/-- The dispatch conditions of `execute`, in source order: a 16-bit word
matches a known instruction exactly when one of these masked comparisons
holds.  The final `else` branch of `execute` (print
"Unknown instruction" and return nil) runs exactly when this predicate
fails. -/
def isKnownOp (op : Nat) : Prop :=
  op = 0x00E0 ∨ op = 0x00EE ∨
  op &&& 0xF000 = 0x1000 ∨ op &&& 0xF000 = 0x2000 ∨
  op &&& 0xF000 = 0x3000 ∨ op &&& 0xF000 = 0x4000 ∨
  op &&& 0xF00F = 0x5000 ∨
  op &&& 0xF000 = 0x6000 ∨ op &&& 0xF000 = 0x7000 ∨
  op &&& 0xF00F = 0x8000 ∨ op &&& 0xF00F = 0x8001 ∨
  op &&& 0xF00F = 0x8002 ∨ op &&& 0xF00F = 0x8003 ∨
  op &&& 0xF00F = 0x8004 ∨ op &&& 0xF00F = 0x8005 ∨
  op &&& 0xF00F = 0x8006 ∨ op &&& 0xF00F = 0x8007 ∨
  op &&& 0xF00F = 0x800E ∨ op &&& 0xF00F = 0x9000 ∨
  op &&& 0xF000 = 0xA000 ∨ op &&& 0xF000 = 0xB000 ∨
  op &&& 0xF000 = 0xC000 ∨ op &&& 0xF000 = 0xD000 ∨
  op &&& 0xF0FF = 0xE09E ∨ op &&& 0xF0FF = 0xE0A1 ∨
  op &&& 0xF0FF = 0xF007 ∨ op &&& 0xF0FF = 0xF00A ∨
  op &&& 0xF0FF = 0xF015 ∨ op &&& 0xF0FF = 0xF018 ∨
  op &&& 0xF0FF = 0xF01E ∨ op &&& 0xF0FF = 0xF029 ∨
  op &&& 0xF0FF = 0xF033 ∨ op &&& 0xF0FF = 0xF055 ∨
  op &&& 0xF0FF = 0xF065

instance (op : Nat) : Decidable (isKnownOp op) := by
  unfold isKnownOp; infer_instance

/-- The `execute` dispatcher of the source: decode the fields
`vx = (op & 0x0F00) >> 8`, `vy = (op & 0x00F0) >> 4`,
`nnn = op & 0x0FFF`, `kk = op & 0x00FF`, `n = op & 0x000F` (inlined at
each use site below) and run the matching handler through the source's
if-else chain.  Handlers that are void in Go are wrapped in `.ok`;
handlers that return an error or can panic pass their outcome through.
The unknown-opcode `else` branch prints and returns nil without touching
any state.  `r` and `k` are the oracles for `rand` (Cxkk) and the
blocking key wait (Fx0A). -/
def execute (r k : Nat) (s : CPU) (op : Nat) : Res :=
  if op = 0x00E0 then .ok (clear s)
  else if op = 0x00EE then ret s
  else if op &&& 0xF000 = 0x1000 then jump s (op &&& 0x0FFF)
  else if op &&& 0xF000 = 0x2000 then call s (op &&& 0x0FFF)
  else if op &&& 0xF000 = 0x3000 then
    .ok (skipIf s ((op &&& 0x0F00) >>> 8) (op &&& 0x00FF))
  else if op &&& 0xF000 = 0x4000 then
    .ok (skipIfNot s ((op &&& 0x0F00) >>> 8) (op &&& 0x00FF))
  else if op &&& 0xF00F = 0x5000 then
    .ok (skipIfXY s ((op &&& 0x0F00) >>> 8) ((op &&& 0x00F0) >>> 4))
  else if op &&& 0xF000 = 0x6000 then
    .ok (load s ((op &&& 0x0F00) >>> 8) (op &&& 0x00FF))
  else if op &&& 0xF000 = 0x7000 then
    .ok (add s ((op &&& 0x0F00) >>> 8) (op &&& 0x00FF))
  else if op &&& 0xF00F = 0x8000 then
    .ok (loadXY s ((op &&& 0x0F00) >>> 8) ((op &&& 0x00F0) >>> 4))
  else if op &&& 0xF00F = 0x8001 then
    .ok (orXY s ((op &&& 0x0F00) >>> 8) ((op &&& 0x00F0) >>> 4))
  else if op &&& 0xF00F = 0x8002 then
    .ok (andXY s ((op &&& 0x0F00) >>> 8) ((op &&& 0x00F0) >>> 4))
  else if op &&& 0xF00F = 0x8003 then
    .ok (xorXY s ((op &&& 0x0F00) >>> 8) ((op &&& 0x00F0) >>> 4))
  else if op &&& 0xF00F = 0x8004 then
    .ok (addXY s ((op &&& 0x0F00) >>> 8) ((op &&& 0x00F0) >>> 4))
  else if op &&& 0xF00F = 0x8005 then
    .ok (subXY s ((op &&& 0x0F00) >>> 8) ((op &&& 0x00F0) >>> 4))
  else if op &&& 0xF00F = 0x8006 then
    .ok (shiftRight s ((op &&& 0x0F00) >>> 8))
  else if op &&& 0xF00F = 0x8007 then
    .ok (subYX s ((op &&& 0x0F00) >>> 8) ((op &&& 0x00F0) >>> 4))
  else if op &&& 0xF00F = 0x800E then
    .ok (shiftLeft s ((op &&& 0x0F00) >>> 8))
  else if op &&& 0xF00F = 0x9000 then
    .ok (skipIfNotXY s ((op &&& 0x0F00) >>> 8) ((op &&& 0x00F0) >>> 4))
  else if op &&& 0xF000 = 0xA000 then .ok (loadI s (op &&& 0x0FFF))
  else if op &&& 0xF000 = 0xB000 then .ok (jumpV0 s (op &&& 0x0FFF))
  else if op &&& 0xF000 = 0xC000 then
    .ok (randKK s ((op &&& 0x0F00) >>> 8) (op &&& 0x00FF) r)
  else if op &&& 0xF000 = 0xD000 then
    draw s ((op &&& 0x0F00) >>> 8) ((op &&& 0x00F0) >>> 4) (op &&& 0x000F)
  else if op &&& 0xF0FF = 0xE09E then skipIfKey s ((op &&& 0x0F00) >>> 8)
  else if op &&& 0xF0FF = 0xE0A1 then skipIfKeyNot s ((op &&& 0x0F00) >>> 8)
  else if op &&& 0xF0FF = 0xF007 then .ok (loadXDT s ((op &&& 0x0F00) >>> 8))
  else if op &&& 0xF0FF = 0xF00A then .ok (loadKey s ((op &&& 0x0F00) >>> 8) k)
  else if op &&& 0xF0FF = 0xF015 then .ok (loadDTX s ((op &&& 0x0F00) >>> 8))
  else if op &&& 0xF0FF = 0xF018 then .ok (loadSTX s ((op &&& 0x0F00) >>> 8))
  else if op &&& 0xF0FF = 0xF01E then .ok (addIX s ((op &&& 0x0F00) >>> 8))
  else if op &&& 0xF0FF = 0xF029 then .ok (loadIX s ((op &&& 0x0F00) >>> 8))
  else if op &&& 0xF0FF = 0xF033 then loadBCD s ((op &&& 0x0F00) >>> 8)
  else if op &&& 0xF0FF = 0xF055 then saveV s ((op &&& 0x0F00) >>> 8)
  else if op &&& 0xF0FF = 0xF065 then loadV s ((op &&& 0x0F00) >>> 8)
  else .ok s

/-- The `Cycle` method of the source: when `PC < 4094`, fetch the
big-endian opcode from `RAM[PC]` and `RAM[PC+1]` (both indices in range
because of the guard), execute it, return early on an executor error,
and otherwise decrement each timer that is positive.  When `PC ≥ 4094`
nothing happens and nil is returned. -/
def cycle (r k : Nat) (s : CPU) : Res :=
  if s.PC < 4094 then
    bindRes (execute r k s ((s.RAM s.PC) <<< 8 ||| s.RAM (s.PC + 1)))
      (fun s1 =>
        let s2 := if s1.DT > 0 then { s1 with DT := s1.DT - 1 } else s1
        .ok (if s2.ST > 0 then { s2 with ST := s2.ST - 1 } else s2))
  else .ok s

/-- `n` consecutive instruction ticks of the driver loop (`Run` in the
source fires `Cycle` once per tick of its frame clock and panics on an
error, so the iteration stops at the first abnormal outcome).  `rs` and
`ks` supply the per-tick oracles. -/
def cycleN (rs ks : Nat → Nat) : Nat → CPU → Res
  | 0, s => .ok s
  | n + 1, s =>
    bindRes (cycle (rs 0) (ks 0) s)
      (cycleN (fun i => rs (i + 1)) (fun i => ks (i + 1)) n)

/-- `n` consecutive CALLs to the fixed address 0x400 without an
intervening RET, propagating the first abnormal outcome. -/
def callChain : Nat → Res → Res
  | 0, r => r
  | n + 1, r => callChain n (bindRes r (fun s => call s 0x400))

/-- Effect of `VM.subXY` (the src/chip8/vm.go revision, cited alongside
the part_000 one) on the register file: the body executes
`this.V[vx] = this.V[vx] + this.V[vy]` — a wrapping byte addition with
no write to VF. -/
def vmSubXY (V : Nat → Nat) (vx vy : Nat) : Nat → Nat :=
  updF V vx ((V vx + V vy) % 256)

/-- A machine state with zeroed memory, registers and pixel buffer and
the post-ROM-load program counter 0x200; concrete test states below are
record updates of it. -/
def zeroCPU : CPU :=
  { RAM := fun _ => 0, GFX := fun _ _ => 0, Stack := fun _ => 0,
    V := fun _ => 0, PC := 0x200, SP := 0, I := 0, DT := 0, ST := 0,
    Key := fun _ => false, DF := false }

/-- Both timers loaded with 10, all memory zero, so that every fetched
opcode is 0x0000 (an unknown instruction that mutates nothing). -/
def timerState : CPU := { zeroCPU with DT := 10, ST := 10 }

/-- Registers V0=5, V1=9, and a stale V15=7, for exercising the two
revisions of the 8xy5 handler. -/
def subRegs : Nat → Nat := fun i => if i = 0 then 5 else if i = 1 then 9 else if i = 15 then 7 else 0

/-- A state with V0=5, V1=9, V15=7 for the part_000 `subXY`. -/
def subState : CPU := { zeroCPU with V := subRegs }

/-- A state whose draw coordinates are V0=0 (x) and V1=33 (y), with an
8-pixel sprite row 0xFF at `RAM[0x300]` and `I = 0x300`: the claimed
wraparound semantics would draw it at screen row 1. -/
def drawOOBState : CPU :=
  { zeroCPU with V := fun i => if i = 1 then 33 else 0,
                 RAM := fun a => if a = 0x300 then 0xFF else 0,
                 I := 0x300 }

/-- A blank-screen state with a stale collision flag V15=1, draw
coordinates V0=V1=0 and a solid sprite row 0xFF at `RAM[0x300]`,
`I = 0x300`: a collision-free draw. -/
def staleVFState : CPU :=
  { zeroCPU with V := fun i => if i = 15 then 1 else 0,
                 RAM := fun a => if a = 0x300 then 0xFF else 0,
                 I := 0x300 }

/-- The same blank-screen collision-free draw with the stale flag value
7 instead of 1, so that retention of the old value is distinguishable
from unconditionally setting the flag. -/
def staleVF7State : CPU :=
  { zeroCPU with V := fun i => if i = 15 then 7 else 0,
                 RAM := fun a => if a = 0x300 then 0xFF else 0,
                 I := 0x300 }

/-- Claim C1 (code evaluated at the failing input): with both timers at
10 and memory all zero, a single `Cycle` already takes DT from 10 to 9,
and ten instruction ticks drain DT and ST from 10 all the way to 0 —
the timers decay once per instruction tick, not at an independent fixed
cadence, so ten ticks at a 10x instruction rate decrement them by ten,
not by the claimed one. -/
theorem cycle_decrements_timers_every_tick :
    resDT (cycleN (fun _ => 0) (fun _ => 0) 1 timerState) = some 9 ∧
    resST (cycleN (fun _ => 0) (fun _ => 0) 1 timerState) = some 9 ∧
    resDT (cycleN (fun _ => 0) (fun _ => 0) 10 timerState) = some 0 ∧
    resST (cycleN (fun _ => 0) (fun _ => 0) 10 timerState) = some 0 := by
  refine ⟨rfl, rfl, rfl, rfl⟩

/-- Claim C3 (code evaluated at the failing input): the 16th nested CALL
is let through (SP reaches 16, the guard `SP > 16` not firing), the 17th
nested CALL crashes with a Go index-out-of-range panic on
`Stack[16]` instead of returning a typed StackOverflow fault, and RET at
SP=0 wraps the unsigned SP to 65535 (its `SP < 0` check can never fire)
and crashes indexing `Stack[65535]` instead of returning a typed
StackUnderflow fault. -/
theorem stack_bounds_panic_not_fault :
    resSP (callChain 16 (.ok zeroCPU)) = some 16 ∧
    Res.isPanic (callChain 17 (.ok zeroCPU)) = true ∧
    Res.isPanic (call { zeroCPU with SP := 16 } 0x400) = true ∧
    Res.isPanic (ret zeroCPU) = true := by
  refine ⟨rfl, rfl, rfl, rfl⟩

/-- Claim C4 (code evaluated at the failing input): on V[x]=5, V[y]=9
with a stale V[F]=7, the part_000 `subXY` produces the claimed
V[x]=0xFC and V[F]=0, but the vm.go revision of the same opcode
(`VM.subXY`, also cited by the claim) produces V[x]=0x0E — it adds
instead of subtracting — and leaves V[F] at the stale 7, never writing
the borrow flag. -/
theorem subXY_vm_adds_instead_of_subtracting :
    (subXY subState 0 1).V 0 = 0xFC ∧
    (subXY subState 0 1).V 15 = 0 ∧
    vmSubXY subRegs 0 1 0 = 0x0E ∧
    vmSubXY subRegs 0 1 15 = 7 := by
  refine ⟨rfl, rfl, rfl, rfl⟩

/-- Claim C5 (code evaluated at the failing input): drawing a one-row
sprite at (V[x], V[y]) = (0, 33) returns the source's
"draw: Y out of bounds" error instead of wrapping the y coordinate to
33 mod 32 = 1 as the claim (and the function's own doc comment) state. -/
theorem draw_errors_instead_of_wrapping :
    Res.isDrawYErr (draw drawOOBState 0 1 1) = true := by
  rfl

/-- Claim C10: a `Cycle` from any state whose PC is at least 4094 is a
no-op returning nil — no fetch, no execution, no timer decrement and no
error; the machine silently stops making progress at the end of
memory. -/
theorem cycle_noop_at_end_of_memory (r k : Nat) (s : CPU) (h : 4094 ≤ s.PC) :
    cycle r k s = .ok s := by
  unfold cycle
  rw [if_neg (by omega)]

/-- Witness for `cycle_noop_at_end_of_memory` at PC = 4094 with nonzero
timers: the tick leaves the state untouched. -/
theorem cycle_noop_at_end_of_memory_witness :
    4094 ≤ ({ timerState with PC := 4094 } : CPU).PC ∧
    cycle 0 0 { timerState with PC := 4094 } = .ok { timerState with PC := 4094 } :=
  ⟨by decide, cycle_noop_at_end_of_memory 0 0 { timerState with PC := 4094 } (by decide)⟩

/-- Claim C2, counterexample: from PC=0x300, SP=0, the CALL pushes the
call-site PC 0x300 itself onto the stack, not the claimed return
address 0x302. -/
theorem call_pushes_callsite_pc_not_plus_two :
    resStack0 (call { zeroCPU with PC := 0x300 } 0x400) = some 0x300 ∧
    resStack0 (call { zeroCPU with PC := 0x300 } 0x400) ≠ some 0x302 :=
  ⟨rfl, by decide⟩

/-- The state a CALL 0x400 from PC=0x300, SP=0 leaves behind: the
call-site PC 0x300 in stack slot 0, PC at the target, SP raised to 1. -/
def afterCall (s : CPU) : CPU :=
  { s with Stack := updF s.Stack 0 0x300, PC := 0x400, SP := 1 }

/-- The state the subsequent RET leaves behind: SP back to 0 and PC at
the popped call-site address plus 2. -/
def afterRet (s : CPU) : CPU :=
  { s with Stack := updF s.Stack 0 0x300, PC := 0x302, SP := 0 }

/-- Helper for claim C2: CALL 0x400 from PC=0x300 and SP=0 succeeds and
produces exactly `afterCall`. -/
theorem callStep (s : CPU) (hpc : s.PC = 0x300) (hsp : s.SP = 0) :
    call s 0x400 = .ok (afterCall s) := by
  unfold call afterCall
  rw [hpc, hsp]
  norm_num

/-- Helper for claim C2: RET from any state with SP=1 and 0x300 in stack
slot 0 pops that address and lands on 0x302 — the add-2 happens after
the pop. -/
theorem retStep (s : CPU) (hsp : s.SP = 1) (hst : s.Stack 0 = 0x300) :
    ret s = .ok { s with SP := 0, PC := 0x302 } := by
  unfold ret
  rw [hsp]
  norm_num [hst]

/-- Helper for claim C2: RET from the post-CALL state produces exactly
`afterRet`. -/
theorem retStep2 (s : CPU) : ret (afterCall s) = .ok (afterRet s) := by
  have h3 := retStep (afterCall s) rfl (by simp [afterCall, updF])
  simpa [afterCall, afterRet] using h3

/-- Claim C2 as amended: from PC=0x300 and SP=0, CALL 0x400 yields SP=1,
stack[0]=0x300 (the call-site PC, not PC+2) and PC=0x400, and the
subsequent RET yields SP=0 and PC=0x302 — the popped address is the
call-site PC and RET adds 2 after the pop, so the round trip still
resumes at 0x302. -/
theorem call_ret_round_trip (s : CPU) (hpc : s.PC = 0x300) (hsp : s.SP = 0) :
    ∃ s1 s2, call s 0x400 = .ok s1 ∧ s1.SP = 1 ∧ s1.Stack 0 = 0x300 ∧
      s1.PC = 0x400 ∧ ret s1 = .ok s2 ∧ s2.SP = 0 ∧ s2.PC = 0x302 :=
  ⟨afterCall s, afterRet s, callStep s hpc hsp, rfl, by simp [afterCall, updF],
    rfl, retStep2 s, rfl, rfl⟩

/-- Witness for `call_ret_round_trip` at the concrete state with
PC=0x300 and SP=0. -/
theorem call_ret_round_trip_witness :
    ∃ s1 s2, call { zeroCPU with PC := 0x300 } 0x400 = .ok s1 ∧ s1.SP = 1 ∧
      s1.Stack 0 = 0x300 ∧ s1.PC = 0x400 ∧
      ret s1 = .ok s2 ∧ s2.SP = 0 ∧ s2.PC = 0x302 :=
  call_ret_round_trip { zeroCPU with PC := 0x300 } rfl rfl

/-- Specification of the `saveV` loop: when every touched address is in
range, the loop succeeds, leaves registers, `I` and `PC` alone, writes
`V[i+k]` to `RAM[I+i+k]` for each of the `c` iterations and touches no
other memory cell. -/
theorem storeRegs_spec (c : Nat) : ∀ (i : Nat) (s : CPU), s.I + i + c ≤ 4096 →
    ∃ s', storeRegs i c s = .ok s' ∧ s'.V = s.V ∧ s'.I = s.I ∧ s'.PC = s.PC ∧
      (∀ k, k < c → s'.RAM (s.I + (i + k)) = s.V (i + k)) ∧
      (∀ a, (∀ k, k < c → a ≠ s.I + (i + k)) → s'.RAM a = s.RAM a) := by
  induction c with
  | zero =>
    intro i s _
    exact ⟨s, rfl, rfl, rfl, rfl, fun k hk => absurd hk (by omega), fun a _ => rfl⟩
  | succ c ih =>
    intro i s h
    have hb : s.I + i < 4096 := by omega
    obtain ⟨s', hs', hV, hI, hPC, hw, hu⟩ :=
      ih (i + 1) { s with RAM := updF s.RAM (s.I + i) (s.V i) } (by simpa using by omega)
    refine ⟨s', ?_, hV, hI, hPC, ?_, ?_⟩
    · simp only [storeRegs]
      rw [if_pos hb]
      exact hs'
    · intro k hk
      match k with
      | 0 =>
        have hne : ∀ k', k' < c → s.I + (i + 0) ≠ s.I + (i + 1 + k') := by omega
        have := hu (s.I + (i + 0)) (by simpa using hne)
        rw [show s.I + (i + 0) = s.I + i by omega] at this
        rw [show (i + 0) = i by omega]
        rw [this]
        simp [updF]
      | k' + 1 =>
        have hlt : k' < c := by omega
        have := hw k' hlt
        simp only at this
        rw [show s.I + (i + (k' + 1)) = s.I + (i + 1 + k') by omega,
          show i + (k' + 1) = i + 1 + k' by omega]
        exact this
    · intro a ha
      have h0 : a ≠ s.I + i := by
        have := ha 0 (by omega)
        omega
      have := hu a (by
        intro k' hk'
        have := ha (k' + 1) (by omega)
        simp only
        omega)
      rw [this]
      simp [updF, h0]

/-- Specification of the `loadV` loop: when every touched address is in
range, the loop succeeds, leaves memory, `I` and `PC` alone, reads
`RAM[I+i+k]` into `V[i+k]` for each of the `c` iterations and touches no
other register. -/
theorem loadRegs_spec (c : Nat) : ∀ (i : Nat) (s : CPU), s.I + i + c ≤ 4096 →
    ∃ s', loadRegs i c s = .ok s' ∧ s'.RAM = s.RAM ∧ s'.I = s.I ∧ s'.PC = s.PC ∧
      (∀ k, k < c → s'.V (i + k) = s.RAM (s.I + (i + k))) ∧
      (∀ j, (∀ k, k < c → j ≠ i + k) → s'.V j = s.V j) := by
  induction c with
  | zero =>
    intro i s _
    exact ⟨s, rfl, rfl, rfl, rfl, fun k hk => absurd hk (by omega), fun j _ => rfl⟩
  | succ c ih =>
    intro i s h
    have hb : s.I + i < 4096 := by omega
    obtain ⟨s', hs', hRAM, hI, hPC, hr, hu⟩ :=
      ih (i + 1) { s with V := updF s.V i (s.RAM (s.I + i)) } (by simpa using by omega)
    refine ⟨s', ?_, hRAM, hI, hPC, ?_, ?_⟩
    · simp only [loadRegs]
      rw [if_pos hb]
      exact hs'
    · intro k hk
      match k with
      | 0 =>
        have hne : ∀ k', k' < c → i + 0 ≠ i + 1 + k' := by omega
        have := hu (i + 0) (by simpa using hne)
        rw [this]
        rw [show (i + 0) = i by omega]
        simp [updF]
      | k' + 1 =>
        have hlt : k' < c := by omega
        have := hr k' hlt
        simp only at this
        rw [show i + (k' + 1) = i + 1 + k' by omega]
        exact this
    · intro j hj
      have h0 : j ≠ i := by
        have := hj 0 (by omega)
        omega
      have := hu j (by
        intro k' hk'
        have := hj (k' + 1) (by omega)
        omega)
      rw [this]
      simp [updF, h0]

/-- Claim C8: for every x in 0..15 and every base address I with I+x in
range, storing V0..Vx with Fx55 and then reading them back with Fx65 at
the same x and I restores V[0..=x] exactly. -/
theorem save_load_round_trip (s : CPU) (x : Nat) (hx : x < 16)
    (hI : s.I + x < 4096) :
    ∃ s1 s2, saveV s x = .ok s1 ∧ loadV s1 x = .ok s2 ∧
      ∀ i, i ≤ x → s2.V i = s.V i := by
  obtain ⟨t1, ht1, hV1, hI1, hPC1, hw1, hu1⟩ :=
    storeRegs_spec (x + 1) 0 s (by omega)
  have hs1 : saveV s x = .ok { t1 with PC := (t1.PC + 2) % 65536 } := by
    unfold saveV
    rw [ht1]
    exact rfl
  obtain ⟨t2, ht2, hRAM2, hI2, hPC2, hr2, hu2⟩ :=
    loadRegs_spec (x + 1) 0 ({ t1 with PC := (t1.PC + 2) % 65536 } : CPU) (by
      simp only
      rw [hI1]
      omega)
  have hs2 : loadV { t1 with PC := (t1.PC + 2) % 65536 } x =
      .ok { t2 with PC := (t2.PC + 2) % 65536 } := by
    unfold loadV
    rw [ht2]
    exact rfl
  refine ⟨_, _, hs1, hs2, ?_⟩
  intro i hi
  have hread := hr2 i (by omega)
  simp only at hread
  rw [show (0 : Nat) + i = i by omega] at hread
  rw [hI1] at hread
  have hmem := hw1 i (by omega)
  rw [show (0 : Nat) + i = i by omega] at hmem
  calc ({ t2 with PC := (t2.PC + 2) % 65536 } : CPU).V i
      = t2.V i := rfl
    _ = t1.RAM (s.I + i) := hread
    _ = s.V i := hmem

/-- Witness for `save_load_round_trip`: x = 15 and I = 0x300 on a state
whose registers hold 40..55. -/
theorem save_load_round_trip_witness :
    (15 : Nat) < 16 ∧
    ({ zeroCPU with V := fun i => 40 + i, I := 0x300 } : CPU).I + 15 < 4096 ∧
    ∃ s1 s2, saveV { zeroCPU with V := fun i => 40 + i, I := 0x300 } 15 = .ok s1 ∧
      loadV s1 15 = .ok s2 ∧
      ∀ i, i ≤ 15 → s2.V i = ({ zeroCPU with V := fun i => 40 + i, I := 0x300 } : CPU).V i :=
  ⟨by omega, by decide,
    save_load_round_trip { zeroCPU with V := fun i => 40 + i, I := 0x300 } 15
      (by omega) (by decide)⟩

/-- Claim C7, counterexample: JP to nnn = 4094 returns the source's
"jump: program counter out of bound" error, although the claim says
every jump with nnn < 4095 succeeds with no fault. -/
theorem jump_faults_at_4094 :
    Res.isJumpErr (jump zeroCPU 4094) = true := rfl

/-- Claim C7 as amended: JP always sets PC to nnn (the assignment
persists even on the error path), and it faults if and only if
nnn > 4028 (i.e. nnn ≥ 4029), not nnn ≥ 4095. -/
theorem jump_sets_pc_faults_above_4028 (s : CPU) (nnn : Nat) :
    resPC (jump s nnn) = some nnn ∧
    (Res.isJumpErr (jump s nnn) = true ↔ 4029 ≤ nnn) := by
  unfold jump
  dsimp only
  by_cases h : nnn > 4028
  · rw [if_pos h]
    exact ⟨rfl, by simp [Res.isJumpErr]; omega⟩
  · rw [if_neg h]
    exact ⟨rfl, by simp [Res.isJumpErr]; omega⟩

/-- Witness for `jump_sets_pc_faults_above_4028` at nnn = 100 and at
nnn = 4094. -/
theorem jump_sets_pc_faults_above_4028_witness :
    (resPC (jump zeroCPU 100) = some 100 ∧
      (Res.isJumpErr (jump zeroCPU 100) = true ↔ 4029 ≤ 100)) ∧
    (resPC (jump zeroCPU 4094) = some 4094 ∧
      (Res.isJumpErr (jump zeroCPU 4094) = true ↔ 4029 ≤ 4094)) :=
  ⟨jump_sets_pc_faults_above_4028 zeroCPU 100,
    jump_sets_pc_faults_above_4028 zeroCPU 4094⟩

/-- One bit of a draw either leaves the flag register V15 unchanged or
sets it to 1; it never writes 0. -/
theorem drawBitStep_vf (row x value j : Nat) (s s' : CPU)
    (h : (drawBitStep row x value j s).state? = some s') :
    s'.V 15 = s.V 15 ∨ s'.V 15 = 1 := by
  unfold drawBitStep at h
  split at h
  · simp only [Res.state?, Option.some.injEq] at h
    subst h
    exact Or.inl rfl
  split at h
  · split at h
    · split at h
      · simp only [Res.state?, Option.some.injEq] at h
        subst h
        split
        · exact Or.inr (by simp [updF])
        · exact Or.inl rfl
      · simp [Res.state?] at h
    · simp [Res.state?] at h
  · simp only [Res.state?, Option.some.injEq] at h
    subst h
    exact Or.inl rfl

/-- The bit loop of a draw either leaves V15 unchanged or sets it
to 1. -/
theorem drawBitsFrom_vf (c : Nat) : ∀ (j row x value : Nat) (s s' : CPU),
    (drawBitsFrom row x value j c s).state? = some s' →
    s'.V 15 = s.V 15 ∨ s'.V 15 = 1 := by
  induction c with
  | zero =>
    intro j row x value s s' h
    simp only [drawBitsFrom, Res.state?, Option.some.injEq] at h
    subst h
    exact Or.inl rfl
  | succ c ih =>
    intro j row x value s s' h
    simp only [drawBitsFrom] at h
    cases hstep : drawBitStep row x value j s with
    | ok s1 =>
      rw [hstep] at h
      simp only [bindRes] at h
      have h1 := drawBitStep_vf row x value j s s1 (by rw [hstep]; rfl)
      have h2 := ih (j + 1) row x value s1 s' h
      rcases h2 with h2 | h2
      · rw [h2]
        exact h1
      · exact Or.inr h2
    | goError k s1 =>
      rw [hstep] at h
      simp only [bindRes, Res.state?, Option.some.injEq] at h
      subst h
      exact drawBitStep_vf row x value j s _ (by rw [hstep]; rfl)
    | panicked k =>
      rw [hstep] at h
      simp [bindRes, Res.state?] at h

/-- The row loop of a draw either leaves V15 unchanged or sets it
to 1. -/
theorem drawRowsFrom_vf (c : Nat) : ∀ (x y i : Nat) (s s' : CPU),
    (drawRowsFrom x y i c s).state? = some s' →
    s'.V 15 = s.V 15 ∨ s'.V 15 = 1 := by
  induction c with
  | zero =>
    intro x y i s s' h
    simp only [drawRowsFrom, Res.state?, Option.some.injEq] at h
    subst h
    exact Or.inl rfl
  | succ c ih =>
    intro x y i s s' h
    simp only [drawRowsFrom] at h
    split at h
    · simp only [Res.state?, Option.some.injEq] at h
      subst h
      exact Or.inl rfl
    split at h
    · cases hbits : drawBitsFrom ((y + i) % 256) x (s.RAM (s.I + i)) 0 8 s with
      | ok s1 =>
        rw [hbits] at h
        simp only [bindRes] at h
        have h1 := drawBitsFrom_vf 8 0 ((y + i) % 256) x (s.RAM (s.I + i)) s s1
          (by rw [hbits]; rfl)
        have h2 := ih x y (i + 1) s1 s' h
        rcases h2 with h2 | h2
        · rw [h2]
          exact h1
        · exact Or.inr h2
      | goError k s1 =>
        rw [hbits] at h
        simp only [bindRes, Res.state?, Option.some.injEq] at h
        subst h
        exact drawBitsFrom_vf 8 0 ((y + i) % 256) x (s.RAM (s.I + i)) s _
          (by rw [hbits]; rfl)
      | panicked k =>
        rw [hbits] at h
        simp [bindRes, Res.state?] at h
    · simp [Res.state?] at h

/-- When the collision test of one bit does not fire, that bit leaves
V15 exactly unchanged in any surviving state. -/
theorem stepCollides_false_vf (row x value j : Nat) (s s' : CPU)
    (hc : stepCollides row x value j s = false)
    (h : (drawBitStep row x value j s).state? = some s') :
    s'.V 15 = s.V 15 := by
  unfold stepCollides at hc
  unfold drawBitStep at h
  by_cases h1 : row > 64
  · simp only [if_pos h1, Res.state?, Option.some.injEq] at h
    subst h
    rfl
  · simp only [if_neg h1] at h hc
    by_cases h2 : value &&& (0x80 >>> j) ≠ 0
    · simp only [if_pos h2] at h hc
      by_cases h3 : row < 32
      · simp only [if_pos h3] at h hc
        by_cases h4 : (x + j) % 256 < 64
        · simp only [if_pos h4] at h hc
          by_cases h5 : s.GFX row ((x + j) % 256) = 1
          · simp only [if_pos h5] at hc
            exact absurd hc (by simp)
          · simp only [if_neg h5, Res.state?, Option.some.injEq] at h
            subst h
            rfl
        · simp [if_neg h4, Res.state?] at h
      · simp [if_neg h3, Res.state?] at h
    · simp only [if_neg h2, Res.state?, Option.some.injEq] at h
      subst h
      rfl

/-- When no collision test fires during the bit loop, the loop leaves
V15 exactly unchanged in any surviving state. -/
theorem drawBitsCollide_false_vf (c : Nat) : ∀ (j row x value : Nat) (s s' : CPU),
    drawBitsCollide row x value j c s = false →
    (drawBitsFrom row x value j c s).state? = some s' →
    s'.V 15 = s.V 15 := by
  induction c with
  | zero =>
    intro j row x value s s' _ h
    simp only [drawBitsFrom, Res.state?, Option.some.injEq] at h
    subst h
    rfl
  | succ c ih =>
    intro j row x value s s' hc h
    simp only [drawBitsCollide] at hc
    simp only [drawBitsFrom] at h
    rw [Bool.or_eq_false_iff] at hc
    obtain ⟨hc1, hc2⟩ := hc
    cases hstep : drawBitStep row x value j s with
    | ok s1 =>
      rw [hstep] at h hc2
      simp only [bindRes] at h
      simp only [contCollide] at hc2
      have e1 := stepCollides_false_vf row x value j s s1 hc1 (by rw [hstep]; rfl)
      have e2 := ih (j + 1) row x value s1 s' hc2 h
      rw [e2, e1]
    | goError k s1 =>
      rw [hstep] at h
      simp only [bindRes, Res.state?, Option.some.injEq] at h
      subst h
      exact stepCollides_false_vf row x value j s _ hc1 (by rw [hstep]; rfl)
    | panicked k =>
      rw [hstep] at h
      simp [bindRes, Res.state?] at h

/-- When no collision test fires during the row loop, the loop leaves
V15 exactly unchanged in any surviving state. -/
theorem drawRowsCollide_false_vf (c : Nat) : ∀ (x y i : Nat) (s s' : CPU),
    drawRowsCollide x y i c s = false →
    (drawRowsFrom x y i c s).state? = some s' →
    s'.V 15 = s.V 15 := by
  induction c with
  | zero =>
    intro x y i s s' _ h
    simp only [drawRowsFrom, Res.state?, Option.some.injEq] at h
    subst h
    rfl
  | succ c ih =>
    intro x y i s s' hc h
    simp only [drawRowsCollide] at hc
    simp only [drawRowsFrom] at h
    by_cases hy : (y + i) % 256 > 32
    · simp only [if_pos hy, Res.state?, Option.some.injEq] at h
      subst h
      rfl
    · simp only [if_neg hy] at h hc
      by_cases hram : s.I + i < 4096
      · simp only [if_pos hram] at h hc
        rw [Bool.or_eq_false_iff] at hc
        obtain ⟨hc1, hc2⟩ := hc
        cases hbits : drawBitsFrom ((y + i) % 256) x (s.RAM (s.I + i)) 0 8 s with
        | ok s1 =>
          rw [hbits] at h hc2
          simp only [bindRes] at h
          simp only [contCollide] at hc2
          have e1 := drawBitsCollide_false_vf 8 0 ((y + i) % 256) x
            (s.RAM (s.I + i)) s s1 hc1 (by rw [hbits]; rfl)
          have e2 := ih x y (i + 1) s1 s' hc2 h
          rw [e2, e1]
        | goError k s1 =>
          rw [hbits] at h
          simp only [bindRes, Res.state?, Option.some.injEq] at h
          subst h
          exact drawBitsCollide_false_vf 8 0 ((y + i) % 256) x
            (s.RAM (s.I + i)) s _ hc1 (by rw [hbits]; rfl)
        | panicked k =>
          rw [hbits] at h
          simp [bindRes, Res.state?] at h
      · simp [if_neg hram, Res.state?] at h

/-- Claim C9: a draw never writes 0 to V15 — every surviving outcome has
the flag equal to its old value or to 1 — and, for every draw in which
no set sprite bit lands on an already-set pixel (`drawCollides` false),
V15 retains exactly the value a previous instruction left in it;
concretely, both a stale V15=7 and a stale V15=1 persist through the
collision-free draw of a solid sprite row on a blank buffer. -/
theorem draw_collision_free_retains_vf :
    (∀ (s : CPU) (vx vy n : Nat),
      resV 15 (draw s vx vy n) = none ∨
      resV 15 (draw s vx vy n) = some (s.V 15) ∨
      resV 15 (draw s vx vy n) = some 1) ∧
    (∀ (s : CPU) (vx vy n : Nat), drawCollides s vx vy n = false →
      resV 15 (draw s vx vy n) = none ∨
      resV 15 (draw s vx vy n) = some (s.V 15)) ∧
    (drawCollides staleVF7State 0 1 1 = false ∧
      resV 15 (draw staleVF7State 0 1 1) = some 7) ∧
    resV 15 (draw staleVFState 0 1 1) = some 1 := by
  refine ⟨?_, ?_, ⟨by decide, rfl⟩, rfl⟩
  · intro s vx vy n
    unfold draw
    cases hrows : drawRowsFrom (s.V vx) (s.V vy) 0 n s with
    | ok s1 =>
      have h1 := drawRowsFrom_vf n (s.V vx) (s.V vy) 0 s s1 (by rw [hrows]; rfl)
      simp only [bindRes, resV, Res.state?, Option.map]
      rcases h1 with h1 | h1
      · exact Or.inr (Or.inl (by rw [← h1]))
      · exact Or.inr (Or.inr (by rw [← h1]))
    | goError k s1 =>
      have h1 := drawRowsFrom_vf n (s.V vx) (s.V vy) 0 s s1 (by rw [hrows]; rfl)
      simp only [bindRes, resV, Res.state?, Option.map]
      rcases h1 with h1 | h1
      · exact Or.inr (Or.inl (by rw [← h1]))
      · exact Or.inr (Or.inr (by rw [← h1]))
    | panicked k =>
      simp [bindRes, resV, Res.state?]
  · intro s vx vy n hc
    unfold draw
    unfold drawCollides at hc
    cases hrows : drawRowsFrom (s.V vx) (s.V vy) 0 n s with
    | ok s1 =>
      have h1 := drawRowsCollide_false_vf n (s.V vx) (s.V vy) 0 s s1 hc
        (by rw [hrows]; rfl)
      simp only [bindRes, resV, Res.state?, Option.map]
      exact Or.inr (by rw [← h1])
    | goError k s1 =>
      have h1 := drawRowsCollide_false_vf n (s.V vx) (s.V vy) 0 s s1 hc
        (by rw [hrows]; rfl)
      simp only [bindRes, resV, Res.state?, Option.map]
      exact Or.inr (by rw [← h1])
    | panicked k =>
      simp [bindRes, resV, Res.state?]

/-- Witness for `draw_collision_free_retains_vf` at the concrete
collision-free draw with the stale flag value 7. -/
theorem draw_collision_free_retains_vf_witness :
    drawCollides staleVF7State 0 1 1 = false ∧
    (resV 15 (draw staleVF7State 0 1 1) = none ∨
      resV 15 (draw staleVF7State 0 1 1) = some (staleVF7State.V 15)) :=
  ⟨by decide,
    draw_collision_free_retains_vf.2.1 staleVF7State 0 1 1 (by decide)⟩

/-- Claim C6, counterexample: executing the unknown opcode 0x0000 from
PC=0x200 leaves PC at 0x200; the claimed advance to 0x202 does not
happen, so the machine re-executes the same word forever. -/
theorem unknown_opcode_pc_frozen :
    resPC (execute 0 0 zeroCPU 0x0000) = some 0x200 ∧
    resPC (execute 0 0 zeroCPU 0x0000) ≠ some 0x202 :=
  ⟨rfl, by decide⟩

/-- Claim C6 as amended: an opcode matching none of the dispatch
patterns mutates no machine state and reports no error — `execute`
returns the input state unchanged (the fault is only printed) — but the
program counter does not advance, so execution continues by re-fetching
the very same instruction. -/
theorem execute_unknown_is_noop (r k : Nat) (s : CPU) (op : Nat)
    (h : ¬ isKnownOp op) : execute r k s op = .ok s := by
  simp only [isKnownOp, not_or] at h
  obtain ⟨h1, h2, h3, h4, h5, h6, h7, h8, h9, h10, h11, h12, h13, h14, h15, h16,
    h17, h18, h19, h20, h21, h22, h23, h24, h25, h26, h27, h28, h29, h30, h31,
    h32, h33, h34⟩ := h
  unfold execute
  rw [if_neg h1, if_neg h2, if_neg h3, if_neg h4, if_neg h5, if_neg h6,
    if_neg h7, if_neg h8, if_neg h9, if_neg h10, if_neg h11, if_neg h12,
    if_neg h13, if_neg h14, if_neg h15, if_neg h16, if_neg h17, if_neg h18,
    if_neg h19, if_neg h20, if_neg h21, if_neg h22, if_neg h23, if_neg h24,
    if_neg h25, if_neg h26, if_neg h27, if_neg h28, if_neg h29, if_neg h30,
    if_neg h31, if_neg h32, if_neg h33, if_neg h34]

/-- Witness for `execute_unknown_is_noop` at the unknown opcode
0x0000. -/
theorem execute_unknown_is_noop_witness :
    ¬ isKnownOp 0x0000 ∧ execute 0 0 zeroCPU 0x0000 = .ok zeroCPU :=
  ⟨by decide, execute_unknown_is_noop 0 0 zeroCPU 0x0000 (by decide)⟩
